import Mathlib

/-!
Shallow embedding of the position/threshold core of the eCurtains firmware
(src/eCurtains.ino).  Floats are modelled as rationals, the persisted
settings struct `g_data` as `GData`, and the AccelStepper hardware state as
the pair (running flag, raw step counter).  The API dispatcher `handle_api`
and the movement routine `move_motor` are translated branch by branch from
the source; the main control loop is `loop_tick`.
-/

namespace ECurtains

/-- eCurtains.ino line 142: default left threshold sentinel. -/
def DEFAULT_POSITION_LEFT : ℚ := -100

/-- eCurtains.ino line 143: default previous position. -/
def DEFAULT_POSITION_CURRENT_PREVIOUS : ℚ := 0

/-- eCurtains.ino line 144: default current position. -/
def DEFAULT_POSITION_CURRENT : ℚ := 0

/-- eCurtains.ino line 145: default right threshold sentinel. -/
def DEFAULT_POSITION_RIGHT : ℚ := 100

/-- eCurtains.ino line 197: epsilon used for comparing fractional values. -/
def g_epsilon : ℚ := 1 / 100000

/-- The C library `fabs`, used by the source for all tolerance checks. -/
def fabs (x : ℚ) : ℚ := if x < 0 then -x else x

/-- The fields of the persisted `g_data` struct (eCurtains.ino lines 228-254)
that the modelled operations read or write.  The string/credential fields
(ssid, hostname, apikey, web user, web password, version) are never touched
by the position, motion or motor-parameter actions and are omitted. -/
structure GData where
  position_left : ℚ
  position_current_previous : ℚ
  position_current : ℚ
  position_right : ℚ
  language : ℤ
  motor_acceleration : ℚ
  motor_max_speed : ℚ
  steps_per_revolution : ℚ
  stepper_motor_and_driver : ℤ
deriving DecidableEq, Repr

/-- State visible to the dispatcher: the persisted record plus the
AccelStepper hardware state (`isRunning`, `currentPosition`). -/
structure ApiState where
  data : GData
  running : Bool
  rawPos : ℤ
deriving DecidableEq, Repr

/-- Result of `move_motor` (eCurtains.ino lines 1018-1096): the returned
number of rotations, the state afterwards, whether the request was ignored
because the motor was still running (the early-return branch that logs
"Motor still running, ignoring request to move"), and the raw step count
passed to `g_AccelStepper.move` (`none` when no move command was issued). -/
structure MoveOutcome where
  rotations : ℚ
  st : ApiState
  busyIgnored : Bool
  issued : Option ℚ
deriving DecidableEq, Repr

/-- eCurtains.ino lines 1018-1096, `move_motor(float no_rotations)`.
If the motor is running the request is ignored and `0.0` returned.
Otherwise the target `current + no_rotations` is clamped to the
`[position_left, position_right]` band, `previous` is set to the old
`current`, the record is written to EEPROM, the stepper counter is reset to
`0` and the stepper is commanded `no_rotations * steps_per_revolution` raw
steps (so it is running afterwards exactly when that count is nonzero). -/
def move_motor (no_rotations : ℚ) (s : ApiState) : MoveOutcome :=
  if s.running then
    { rotations := 0, st := s, busyIgnored := true, issued := none }
  else
    let g := s.data
    if g.position_current + no_rotations < g.position_left then
      let d := g.position_left - g.position_current
      let g1 := { g with position_current_previous := g.position_current,
                         position_current := g.position_left }
      { rotations := d,
        st := { data := g1, running := decide (d * g.steps_per_revolution ≠ 0),
                rawPos := 0 },
        busyIgnored := false,
        issued := some (d * g.steps_per_revolution) }
    else if g.position_current + no_rotations > g.position_right then
      let d := g.position_right - g.position_current
      let g1 := { g with position_current_previous := g.position_current,
                         position_current := g.position_right }
      { rotations := d,
        st := { data := g1, running := decide (d * g.steps_per_revolution ≠ 0),
                rawPos := 0 },
        busyIgnored := false,
        issued := some (d * g.steps_per_revolution) }
    else
      let g1 := { g with position_current_previous := g.position_current,
                         position_current := g.position_current + no_rotations }
      { rotations := no_rotations,
        st := { data := g1,
                running := decide (no_rotations * g.steps_per_revolution ≠ 0),
                rawPos := 0 },
        busyIgnored := false,
        issued := some (no_rotations * g.steps_per_revolution) }

/-- The API actions of `handle_api` (eCurtains.ino lines 1137-1675) that
touch the position/motor core.  A `none` value models an absent or empty
`value` request argument; for float arguments a supplied value is the
parsed `value.toFloat()`, for `set_language` the parsed `value.toInt()`.
The remaining actions (reboot, reset, set_api, set_host) never touch the
position record and are summarised by `unknown` only for unrecognised
action strings. -/
inductive Action where
  | set_language (value : Option ℤ)
  | reset_left
  | reset_current
  | reset_right
  | set_left (value : Option ℚ)
  | move_motor_cmd (value : Option ℚ)
  | set_right (value : Option ℚ)
  | move_total_left
  | move_total_right
  | stop_motor
  | motor_acceleration (value : Option ℚ)
  | motor_max_speed (value : Option ℚ)
  | unknown
deriving DecidableEq, Repr

/-- Outcome of one `handle_api` call: the state afterwards, the HTTP status
code sent (`200` for OK, `501` for NOK), and the raw step count passed to
`g_AccelStepper.move` during the call, if any. -/
structure ApiResult where
  st : ApiState
  status : ℕ
  issued : Option ℚ
deriving DecidableEq, Repr

/-- eCurtains.ino lines 1137-1675, `handle_api()`, translated branch by
branch for an authorised caller (the API-key gate is external to the core).
`set_language` with a missing or out-of-range value falls back to English
(`language := 0`) and commits before answering NOK.  `set_left`/`set_right`
default the new threshold to the current position, reject a crossing value
with NOK and no mutation, and commit otherwise.  `move_motor` with a
missing value answers NOK without mutation, otherwise it calls `move_motor`
and answers OK (even when the motor was busy and the request was ignored).
`move_total_left`/`move_total_right` answer NOK when the respective
threshold is still within `g_epsilon` of its sentinel default, otherwise
they call `move_motor` with the constant `DEFAULT_POSITION_LEFT` /
`DEFAULT_POSITION_RIGHT` as the relative rotation count.  `stop_motor`
halts the motor, reconciles `current` from the raw step counter when the
travelled rotations exceed `g_epsilon` in absolute value, and always resets
the counter to `0`.  `motor_acceleration`/`motor_max_speed` parse the value
with `toFloat` (so an empty value becomes `0.0`) and commit it. -/
def handle_api : Action → ApiState → ApiResult
  | .set_language none, s =>
      { st := { s with data := { s.data with language := 0 } },
        status := 501, issued := none }
  | .set_language (some v), s =>
      if v < 0 ∨ v > 1 then
        { st := { s with data := { s.data with language := 0 } },
          status := 501, issued := none }
      else
        { st := { s with data := { s.data with language := v } },
          status := 200, issued := none }
  | .reset_left, s =>
      { st := { s with data := { s.data with
                  position_left := DEFAULT_POSITION_LEFT } },
        status := 200, issued := none }
  | .reset_current, s =>
      { st := { s with data := { s.data with
                  position_current_previous := DEFAULT_POSITION_CURRENT_PREVIOUS,
                  position_current := DEFAULT_POSITION_CURRENT } },
        status := 200, issued := none }
  | .reset_right, s =>
      { st := { s with data := { s.data with
                  position_right := DEFAULT_POSITION_RIGHT } },
        status := 200, issued := none }
  | .set_left v, s =>
      let position_left := v.getD s.data.position_current
      if position_left > s.data.position_right ∨
         position_left > s.data.position_current then
        { st := s, status := 501, issued := none }
      else
        { st := { s with data := { s.data with position_left := position_left } },
          status := 200, issued := none }
  | .move_motor_cmd none, s =>
      { st := s, status := 501, issued := none }
  | .move_motor_cmd (some v), s =>
      let r := move_motor v s
      { st := r.st, status := 200, issued := r.issued }
  | .set_right v, s =>
      let position_right := v.getD s.data.position_current
      if position_right < s.data.position_left ∨
         position_right < s.data.position_current then
        { st := s, status := 501, issued := none }
      else
        { st := { s with data := { s.data with position_right := position_right } },
          status := 200, issued := none }
  | .move_total_left, s =>
      if fabs (s.data.position_left - DEFAULT_POSITION_LEFT) < g_epsilon then
        { st := s, status := 501, issued := none }
      else
        let r := move_motor DEFAULT_POSITION_LEFT s
        { st := r.st, status := 200, issued := r.issued }
  | .move_total_right, s =>
      if fabs (s.data.position_right - DEFAULT_POSITION_RIGHT) < g_epsilon then
        { st := s, status := 501, issued := none }
      else
        let r := move_motor DEFAULT_POSITION_RIGHT s
        { st := r.st, status := 200, issued := r.issued }
  | .stop_motor, s =>
      let positions_moved := (s.rawPos : ℚ) / (s.data.steps_per_revolution * 1)
      if fabs positions_moved > g_epsilon then
        { st := { data := { s.data with position_current :=
                    s.data.position_current_previous + positions_moved },
                  running := false, rawPos := 0 },
          status := 200, issued := none }
      else
        { st := { data := s.data, running := false, rawPos := 0 },
          status := 200, issued := none }
  | .motor_acceleration v, s =>
      { st := { s with data := { s.data with motor_acceleration := v.getD 0 } },
        status := 200, issued := none }
  | .motor_max_speed v, s =>
      { st := { s with data := { s.data with motor_max_speed := v.getD 0 } },
        status := 200, issued := none }
  | .unknown, s =>
      { st := s, status := 501, issued := none }

/-- The reconciliation step performed by the stop-motor handlers
(eCurtains.ino lines 1594-1621 and 2649-2678): convert the raw step counter
to rotations by dividing by `steps_per_revolution * 1.0` and, when the
travelled rotations exceed `g_epsilon` in absolute value, set `current` to
`previous` plus the travelled rotations, otherwise leave the record as is. -/
def reconcile_after_stop (g : GData) (raw_steps_traveled : ℤ) : GData :=
  let moved := (raw_steps_traveled : ℚ) / (g.steps_per_revolution * 1)
  if fabs moved > g_epsilon then
    { g with position_current := g.position_current_previous + moved }
  else
    g

/-- The persisted-record invariant stated in the specification:
`left <= current <= right` and `left <= right`. -/
def invariantOK (g : GData) : Prop :=
  g.position_left ≤ g.position_current ∧
  g.position_current ≤ g.position_right ∧
  g.position_left ≤ g.position_right

instance (g : GData) : Decidable (invariantOK g) := by
  unfold invariantOK; infer_instance

/-- State seen by the main loop: the dispatcher state plus whether the
motor pin outputs are enabled. -/
structure LoopState where
  st : ApiState
  outputsEnabled : Bool
deriving DecidableEq, Repr

/-- eCurtains.ino lines 937-971, one pass of `loop()`:
`server.handleClient()` services at most one pending request (modelled by
the optional `pending` action), `g_AccelStepper.run()` advances the motor
hardware one control step (modelled by the hardware transition `run` on the
(running, raw counter) pair, which cannot touch `g_data`), and when the
motor is not running the motor pin outputs are disabled.  The loop body
contains no EEPROM write and no recomputation of the position record. -/
def loop_tick (run : Bool × ℤ → Bool × ℤ) (pending : Option Action)
    (l : LoopState) : LoopState :=
  let s1 := match pending with
    | none => l.st
    | some a => (handle_api a l.st).st
  let rp := run (s1.running, s1.rawPos)
  let s2 : ApiState := { data := s1.data, running := rp.1, rawPos := rp.2 }
  { st := s2, outputsEnabled := if rp.1 then l.outputsEnabled else false }

/-- C1: for every position record with `left <= current <= right` and every
requested delta, with the motor idle, `move_motor` commits a record whose
`current` stays in `[left, right]` (the thresholds being unchanged), whose
`previous` is the old `current`, and returns exactly
`new_current - old_current`. -/
theorem move_motor_clamping (g : GData) (delta : ℚ) (rp : ℤ)
    (h1 : g.position_left ≤ g.position_current)
    (h2 : g.position_current ≤ g.position_right) :
    g.position_left ≤ (move_motor delta ⟨g, false, rp⟩).st.data.position_current ∧
    (move_motor delta ⟨g, false, rp⟩).st.data.position_current ≤ g.position_right ∧
    (move_motor delta ⟨g, false, rp⟩).st.data.position_left = g.position_left ∧
    (move_motor delta ⟨g, false, rp⟩).st.data.position_right = g.position_right ∧
    (move_motor delta ⟨g, false, rp⟩).st.data.position_current_previous =
      g.position_current ∧
    (move_motor delta ⟨g, false, rp⟩).rotations =
      (move_motor delta ⟨g, false, rp⟩).st.data.position_current -
        g.position_current := by
  simp only [move_motor, Bool.false_eq_true, if_false]
  split_ifs with hL hR
  · exact ⟨le_refl _, le_trans h1 h2, rfl, rfl, rfl, by ring⟩
  · exact ⟨le_trans h1 h2, le_refl _, rfl, rfl, rfl, by ring⟩
  · push_neg at hL hR
    exact ⟨hL, hR, rfl, rfl, rfl, by ring⟩

/-- Witness for C1 at a concrete record and delta. -/
theorem move_motor_clamping_witness :
    (move_motor 50 ⟨⟨-100, 0, 0, 100, 1, 100, 250, 2048, 0⟩, false, 0⟩).rotations =
      (move_motor 50 ⟨⟨-100, 0, 0, 100, 1, 100, 250, 2048, 0⟩, false,
        0⟩).st.data.position_current - 0 :=
  (move_motor_clamping ⟨-100, 0, 0, 100, 1, 100, 250, 2048, 0⟩ 50 0
    (by norm_num) (by norm_num)).2.2.2.2.2

/-- C2 counterexample: the record `(left, previous, current, right) =
(3, 5, 5, 100)` satisfies the invariant, yet after the committed mutation
`reset_current` the record `(3, 0, 0, 100)` violates `left <= current`. -/
theorem reset_current_breaks_invariant :
    invariantOK ⟨3, 5, 5, 100, 1, 100, 250, 2048, 0⟩ ∧
    ¬ invariantOK
        (handle_api .reset_current
          ⟨⟨3, 5, 5, 100, 1, 100, 250, 2048, 0⟩, false, 0⟩).st.data := by
  decide

/-- C2 as amended: the motion and threshold-set mutations (`move_motor`,
`set_left`, `set_right`) do preserve `left <= current <= right` (hence
`left <= right`); the reset and stop operations do not in general. -/
theorem invariant_preserved_by_move_and_set (s : ApiState) (d : ℚ)
    (v w : Option ℚ) (h : invariantOK s.data) :
    invariantOK (handle_api (.move_motor_cmd (some d)) s).st.data ∧
    invariantOK (handle_api (.set_left v) s).st.data ∧
    invariantOK (handle_api (.set_right w) s).st.data := by
  obtain ⟨h1, h2, h3⟩ := h
  refine ⟨?_, ?_, ?_⟩
  · simp only [handle_api, move_motor]
    split_ifs with hrun hL hR
    · exact ⟨h1, h2, h3⟩
    · exact ⟨le_refl _, h3, h3⟩
    · exact ⟨h3, le_refl _, h3⟩
    · push_neg at hL hR
      exact ⟨hL, hR, h3⟩
  · simp only [handle_api]
    split_ifs with hrej
    · exact ⟨h1, h2, h3⟩
    · push_neg at hrej
      exact ⟨hrej.2, h2, hrej.1⟩
  · simp only [handle_api]
    split_ifs with hrej
    · exact ⟨h1, h2, h3⟩
    · push_neg at hrej
      exact ⟨h1, hrej.2, hrej.1⟩

/-- Witness for the amended C2 at a concrete record. -/
theorem invariant_preserved_witness :
    invariantOK (handle_api (.move_motor_cmd (some 50))
      ⟨⟨-100, 0, 0, 100, 1, 100, 250, 2048, 0⟩, false, 0⟩).st.data :=
  (invariant_preserved_by_move_and_set
    ⟨⟨-100, 0, 0, 100, 1, 100, 250, 2048, 0⟩, false, 0⟩ 50 none none
    (by decide)).1

/-- C3 failing input: with the calibrated record `(left, previous, current,
right) = (-50, 60, 60, 100)` and the motor idle, `move_total_left` is
accepted (status 200) but commits `current = -40` and commands
`-100 * 200` raw steps: it performs `move_motor(-100.0)`, a fixed relative
move by the sentinel constant, not `move_by(left - current) = -110`, so the
motor does not reach the `left` threshold `-50`. -/
theorem move_total_left_misses_threshold :
    (handle_api .move_total_left
      ⟨⟨-50, 60, 60, 100, 1, 100, 250, 200, 0⟩, false, 0⟩).status = 200 ∧
    (handle_api .move_total_left
      ⟨⟨-50, 60, 60, 100, 1, 100, 250, 200, 0⟩, false,
        0⟩).st.data.position_current = -40 ∧
    (handle_api .move_total_left
      ⟨⟨-50, 60, 60, 100, 1, 100, 250, 200, 0⟩, false, 0⟩).issued =
      some (-20000) ∧
    (-40 : ℚ) ≠ -50 := by
  norm_num [handle_api, move_motor, fabs, g_epsilon, DEFAULT_POSITION_LEFT]

/-- C4 counterexample: a loop pass with no pending request in which the
motor goes from running to stopped with 150 raw steps on the counter
leaves the position record untouched, although `reconcile_after_stop`
would have changed it (current would become `previous + 150/200 = 3/4`). -/
theorem loop_tick_skips_reconciliation :
    (⟨⟨⟨-100, 0, 0, 100, 1, 100, 250, 200, 0⟩, true, 150⟩, true⟩ :
        LoopState).st.running = true ∧
    (loop_tick (fun _ => (false, 150)) none
      ⟨⟨⟨-100, 0, 0, 100, 1, 100, 250, 200, 0⟩, true, 150⟩,
        true⟩).st.running = false ∧
    (loop_tick (fun _ => (false, 150)) none
      ⟨⟨⟨-100, 0, 0, 100, 1, 100, 250, 200, 0⟩, true, 150⟩, true⟩).st.data =
      ⟨-100, 0, 0, 100, 1, 100, 250, 200, 0⟩ ∧
    reconcile_after_stop ⟨-100, 0, 0, 100, 1, 100, 250, 200, 0⟩ 150 ≠
      ⟨-100, 0, 0, 100, 1, 100, 250, 200, 0⟩ := by
  refine ⟨rfl, rfl, rfl, ?_⟩
  intro h
  have h2 := congrArg GData.position_current h
  norm_num [reconcile_after_stop, fabs, g_epsilon] at h2

/-- C4 as amended: a scheduler tick with no pending request never changes
the persisted position record, whatever the motor hardware does in that
tick — in particular no reconciliation and no persistence happen when the
motor transitions from moving to idle; reconciliation is performed only by
the `stop_motor` request handler. -/
theorem loop_tick_preserves_record (run : Bool × ℤ → Bool × ℤ)
    (l : LoopState) :
    (loop_tick run none l).st.data = l.st.data := rfl

/-- C5: while the motor reports running, `move_motor` takes the
busy-ignored branch, returns `0.0` and leaves the state bit-for-bit
unchanged with no motor command issued, and the dispatcher still answers
status 200 (not an error). -/
theorem move_motor_busy_guard (v : ℚ) (g : GData) (rp : ℤ) :
    move_motor v ⟨g, true, rp⟩ =
      { rotations := 0, st := ⟨g, true, rp⟩, busyIgnored := true,
        issued := none } ∧
    handle_api (.move_motor_cmd (some v)) ⟨g, true, rp⟩ =
      { st := ⟨g, true, rp⟩, status := 200, issued := none } := by
  exact ⟨rfl, rfl⟩

/-- C6: the `stop_motor` action performs exactly `reconcile_after_stop`
(with `moved = raw_steps / steps_per_revolution`, `current` becomes
`previous + moved` when `|moved|` exceeds epsilon and is untouched
otherwise) and always resets the hardware step counter to zero; at
`previous = 10`, `steps_per_revolution = 200` and 150 raw traveled steps
the committed `current` is `10.75 = 43/4`. -/
theorem stop_motor_reconciliation (s : ApiState) :
    handle_api .stop_motor s =
      { st := { data := reconcile_after_stop s.data s.rawPos,
                running := false, rawPos := 0 },
        status := 200, issued := none } ∧
    (handle_api .stop_motor
      ⟨⟨-100, 10, 0, 100, 1, 100, 250, 200, 0⟩, true,
        150⟩).st.data.position_current = 43 / 4 := by
  constructor
  · simp only [handle_api, reconcile_after_stop]
    split_ifs <;> rfl
  · norm_num [handle_api, fabs, g_epsilon]

/-- C7: `set_left` is rejected with status 501 and no state change exactly
when the new value (defaulting to the current position) exceeds `right` or
exceeds `current`, and otherwise commits only the `left` field; acceptance
therefore never yields `left > right` or `left > current`.  Symmetrically
for `set_right`. -/
theorem set_threshold_validation (s : ApiState) (v w : Option ℚ) :
    ((handle_api (.set_left v) s).status = 501 ↔
       v.getD s.data.position_current > s.data.position_right ∨
       v.getD s.data.position_current > s.data.position_current) ∧
    ((handle_api (.set_left v) s).status = 501 →
       (handle_api (.set_left v) s).st = s) ∧
    ((handle_api (.set_left v) s).status ≠ 501 →
       (handle_api (.set_left v) s).st.data =
         { s.data with position_left := v.getD s.data.position_current } ∧
       (handle_api (.set_left v) s).st.data.position_left ≤
         (handle_api (.set_left v) s).st.data.position_right ∧
       (handle_api (.set_left v) s).st.data.position_left ≤
         (handle_api (.set_left v) s).st.data.position_current) ∧
    ((handle_api (.set_right w) s).status = 501 ↔
       w.getD s.data.position_current < s.data.position_left ∨
       w.getD s.data.position_current < s.data.position_current) ∧
    ((handle_api (.set_right w) s).status = 501 →
       (handle_api (.set_right w) s).st = s) ∧
    ((handle_api (.set_right w) s).status ≠ 501 →
       (handle_api (.set_right w) s).st.data =
         { s.data with position_right := w.getD s.data.position_current } ∧
       (handle_api (.set_right w) s).st.data.position_left ≤
         (handle_api (.set_right w) s).st.data.position_right ∧
       (handle_api (.set_right w) s).st.data.position_current ≤
         (handle_api (.set_right w) s).st.data.position_right) := by
  simp only [handle_api]
  split_ifs with hL1 hR1 hR2
  · exact ⟨iff_of_true rfl hL1, fun _ => rfl, fun h => absurd rfl h,
      iff_of_true rfl hR1, fun _ => rfl, fun h => absurd rfl h⟩
  · have hRa := not_lt.mp (not_or.mp hR1).1
    have hRb := not_lt.mp (not_or.mp hR1).2
    exact ⟨iff_of_true rfl hL1, fun _ => rfl, fun h => absurd rfl h,
      iff_of_false (by simp) hR1, fun h => absurd h (by simp),
      fun _ => ⟨rfl, hRa, hRb⟩⟩
  · have hLa := not_lt.mp (not_or.mp hL1).1
    have hLb := not_lt.mp (not_or.mp hL1).2
    exact ⟨iff_of_false (by simp) hL1, fun h => absurd h (by simp),
      fun _ => ⟨rfl, hLa, hLb⟩,
      iff_of_true rfl hR2, fun _ => rfl, fun h => absurd rfl h⟩
  · have hLa := not_lt.mp (not_or.mp hL1).1
    have hLb := not_lt.mp (not_or.mp hL1).2
    have hRa := not_lt.mp (not_or.mp hR2).1
    have hRb := not_lt.mp (not_or.mp hR2).2
    exact ⟨iff_of_false (by simp) hL1, fun h => absurd h (by simp),
      fun _ => ⟨rfl, hLa, hLb⟩,
      iff_of_false (by simp) hR2, fun h => absurd h (by simp),
      fun _ => ⟨rfl, hRa, hRb⟩⟩

/-- Witness for C7: a successful `set_left 5` on the record
`(-100, 0, 10, 100)` commits `left = 5`. -/
theorem set_threshold_validation_witness :
    (handle_api (.set_left (some 5))
      ⟨⟨-100, 0, 10, 100, 1, 100, 250, 2048, 0⟩, false, 0⟩).st.data =
      ⟨5, 0, 10, 100, 1, 100, 250, 2048, 0⟩ :=
  ((set_threshold_validation
      ⟨⟨-100, 0, 10, 100, 1, 100, 250, 2048, 0⟩, false, 0⟩
      (some 5) (some 5)).2.2.1
    (by norm_num [handle_api])).1

/-- C8: `move_total_left` invoked while `left` is within epsilon of the
sentinel `-100.0` answers the not-calibrated error (status 501) and leaves
the entire state unchanged with no motor command issued; symmetrically for
`move_total_right` and the sentinel `+100.0`. -/
theorem move_total_calibration_gate (s t : ApiState)
    (hs : fabs (s.data.position_left - DEFAULT_POSITION_LEFT) < g_epsilon)
    (ht : fabs (t.data.position_right - DEFAULT_POSITION_RIGHT) < g_epsilon) :
    handle_api .move_total_left s =
      { st := s, status := 501, issued := none } ∧
    handle_api .move_total_right t =
      { st := t, status := 501, issued := none } := by
  constructor
  · simp only [handle_api, if_pos hs]
  · simp only [handle_api, if_pos ht]

/-- Witness for C8 at the factory-default record, whose thresholds equal
both sentinels exactly. -/
theorem move_total_calibration_gate_witness :
    handle_api .move_total_left
      ⟨⟨-100, 0, 0, 100, 1, 100, 250, 2048, 0⟩, false, 0⟩ =
      { st := ⟨⟨-100, 0, 0, 100, 1, 100, 250, 2048, 0⟩, false, 0⟩,
        status := 501, issued := none } :=
  (move_total_calibration_gate
    ⟨⟨-100, 0, 0, 100, 1, 100, 250, 2048, 0⟩, false, 0⟩
    ⟨⟨-100, 0, 0, 100, 1, 100, 250, 2048, 0⟩, false, 0⟩
    (by norm_num [fabs, g_epsilon, DEFAULT_POSITION_LEFT])
    (by norm_num [fabs, g_epsilon, DEFAULT_POSITION_RIGHT])).1

/-- C9 counterexample: `motor_acceleration` with a missing value is not
rejected at all — it answers status 200 and commits
`motor_acceleration = 0` (the `toFloat` of an empty string) over the
previous value 100, so the persisted state changes. -/
theorem motor_acceleration_missing_value_mutates :
    (handle_api (.motor_acceleration none)
      ⟨⟨-100, 0, 0, 100, 1, 100, 250, 2048, 0⟩, false, 0⟩).status = 200 ∧
    (handle_api (.motor_acceleration none)
      ⟨⟨-100, 0, 0, 100, 1, 100, 250, 2048, 0⟩, false,
        0⟩).st.data.motor_acceleration = 0 ∧
    (⟨-100, 0, 0, 100, 1, 100, 250, 2048, 0⟩ :
      GData).motor_acceleration = 100 := by
  norm_num [handle_api]

/-- C9 as amended: `move_motor` with a missing value reports the
missing-value error (status 501) with no state change, but `set_language`
with a missing value reports an error while also committing
`language := 0`, and `motor_acceleration` / `motor_max_speed` with a
missing value are accepted (status 200) and commit the value `0.0`. -/
theorem missing_value_behaviour (s : ApiState) :
    handle_api (.move_motor_cmd none) s =
      { st := s, status := 501, issued := none } ∧
    handle_api (.set_language none) s =
      { st := { s with data := { s.data with language := 0 } },
        status := 501, issued := none } ∧
    handle_api (.motor_acceleration none) s =
      { st := { s with data := { s.data with motor_acceleration := 0 } },
        status := 200, issued := none } ∧
    handle_api (.motor_max_speed none) s =
      { st := { s with data := { s.data with motor_max_speed := 0 } },
        status := 200, issued := none } :=
  ⟨rfl, rfl, rfl, rfl⟩

/-- C10: the stop/reconcile path applies no bounds clamping: there is a
record with `left <= previous <= right` and a raw step count for which
`stop_motor` commits `current = previous + raw / steps_per_revolution`
strictly above `right`. -/
theorem stop_motor_unclamped :
    ∃ s : ApiState,
      s.data.position_left ≤ s.data.position_current_previous ∧
      s.data.position_current_previous ≤ s.data.position_right ∧
      (handle_api .stop_motor s).st.data.position_current =
        s.data.position_current_previous +
          (s.rawPos : ℚ) / (s.data.steps_per_revolution * 1) ∧
      s.data.position_right <
        (handle_api .stop_motor s).st.data.position_current := by
  refine ⟨⟨⟨-1, 0, 0, 1, 1, 100, 250, 200, 0⟩, true, 1000⟩, ?_, ?_, ?_, ?_⟩ <;>
    norm_num [handle_api, fabs, g_epsilon]

end ECurtains
